import Mathlib

set_option linter.unusedVariables false

/-!
Verification development for the district-information chatbot in
src/chatbot.py.  Python strings are modelled as List Char; the opaque
embedding model and the FAISS index are summarised by the rows of
(index, distance) pairs a search returns; a Python exception is
modelled by Option none.  Rendering is abstracted to the
display-agnostic structure of the response (table rows, chart payload,
plain replies) while all string processing (splitting, lower-casing,
stripping, substring tests) is embedded faithfully.
-/

namespace Chatbot

/-- Test that the second list starts with the first, as Python startswith. -/
def startsWith : List Char → List Char → Bool
  | [], _ => true
  | _ :: _, [] => false
  | p :: ps, c :: cs => p == c && startsWith ps cs

/-- Python substring containment, the in operator on strings. -/
def containsL (pat : List Char) : List Char → Bool
  | [] => pat.isEmpty
  | c :: rest => startsWith pat (c :: rest) || containsL pat rest

/-- Whether the two-character separator c1 c2 occurs somewhere in the list. -/
def hasSep (c1 c2 : Char) : List Char → Bool
  | [] => false
  | [_] => false
  | a :: b :: rest => (a == c1 && b == c2) || hasSep c1 c2 (b :: rest)

/-- Python str.split on a fixed two-character separator. -/
def splitSep (c1 c2 : Char) : List Char → List (List Char)
  | [] => [[]]
  | [c] => [[c]]
  | a :: b :: rest =>
    if a == c1 && b == c2 then
      [] :: splitSep c1 c2 rest
    else
      match splitSep c1 c2 (b :: rest) with
      | [] => [[a]]
      | x :: xs => (a :: x) :: xs

/-- Python str.split with maxsplit 1 on a two-character separator: the part
before the first occurrence and, when the separator occurs at all, the part
after it. -/
def splitSep1 (c1 c2 : Char) : List Char → List Char × Option (List Char)
  | [] => ([], none)
  | [c] => ([c], none)
  | a :: b :: rest =>
    if a == c1 && b == c2 then ([], some rest)
    else
      let r := splitSep1 c1 c2 (b :: rest)
      (a :: r.1, r.2)

/-- Joining parts with a two-character separator; the canonical text of a
record is such a join of its key-value segments. -/
def joinSep (c1 c2 : Char) : List (List Char) → List Char
  | [] => []
  | [x] => x
  | x :: y :: rest => x ++ c1 :: c2 :: joinSep c1 c2 (y :: rest)

/-- Python str.lower on the ASCII texts used by the program. -/
def pyLower (s : List Char) : List Char := s.map Char.toLower

/-- The whitespace characters removed by Python str.strip. -/
def isPySpace (c : Char) : Bool :=
  c == ' ' || c == '\t' || c == '\n' || c == '\r' || c == '\x0b' || c == '\x0c'

/-- Python str.strip: drop whitespace from both ends. -/
def pyStrip (s : List Char) : List Char :=
  ((s.dropWhile isPySpace).reverse.dropWhile isPySpace).reverse

/-- Python list indexing, including negative-index wrap-around; none models
an IndexError. -/
def pyIndex {α : Type} (l : List α) (i : Int) : Option α :=
  let j : Int := if i < 0 then (l.length : Int) + i else i
  if j < 0 then none else l[j.toNat]?

/-- Mapping a fallible step over a list, modelling a Python loop whose body
may raise: the first raise aborts the whole loop. -/
def mapOption {α β : Type} (f : α → Option β) : List α → Option (List β)
  | [] => some []
  | a :: as =>
    match f a with
    | none => none
    | some b => Option.map (fun bs => b :: bs) (mapOption f as)

/-- Python str.replace of the fixed pattern " mm" by the empty string,
scanning left to right as replace does. -/
def stripMM : List Char → List Char
  | ' ' :: 'm' :: 'm' :: rest => stripMM rest
  | c :: rest => c :: stripMM rest
  | [] => []

/-- Value of a digit string, most significant digit first. -/
def digitsToNat (l : List Char) : Nat :=
  l.foldl (fun a c => a * 10 + (c.toNat - 48)) 0

/-- Python float() on the plain decimal strings the dataset uses (optional
sign, integer part, optional fractional part), returning the exact decimal
value as a rational built with mkRat; none models the ValueError raised on
anything else. -/
def pyFloat (s0 : List Char) : Option Rat :=
  let s1 := pyStrip s0
  let sg : Int × List Char :=
    match s1 with
    | '-' :: r => (-1, r)
    | '+' :: r => (1, r)
    | r => (1, r)
  let ip := sg.2.takeWhile Char.isDigit
  let r1 := sg.2.dropWhile Char.isDigit
  match r1 with
  | [] => if ip.isEmpty then none else some (mkRat (sg.1 * digitsToNat ip) 1)
  | '.' :: fr =>
    let fd := fr.takeWhile Char.isDigit
    let r2 := fr.dropWhile Char.isDigit
    if r2.isEmpty && !(ip.isEmpty && fd.isEmpty) then
      some (mkRat (sg.1 * (digitsToNat ip * 10 ^ fd.length + digitsToNat fd)) (10 ^ fd.length))
    else none
  | _ => none

/-- The deny-list of chatbot.py lines 19-22. -/
def FORBIDDEN_KEYWORDS : List (List Char) :=
  ["jailbreak".data, "hack".data, "exploit".data, "bypass".data, "override".data,
   "system prompt".data, "ignore instructions".data, "root access".data, "admin".data,
   "malicious".data, "code injection".data]

/-- One district record.  Each field is kept as the exact string that the
Python f-string of data_to_text interpolates for it. -/
structure Record where
  district : List Char
  lat : List Char
  lon : List Char
  year : List Char
  scenario : List Char
  population_estimate : List Char
  avg_annual_rainfall_mm : List Char
  groundwater_level_m : List Char

/-- data_to_text of chatbot.py lines 46-51: the canonical text of a record. -/
def data_to_text (r : Record) : List Char :=
  "District: ".data ++ r.district ++ ", Latitude: ".data ++ r.lat ++
  ", Longitude: ".data ++ r.lon ++ ", Year: ".data ++ r.year ++
  ", Scenario: ".data ++ r.scenario ++ ", Population: ".data ++ r.population_estimate ++
  ", Rainfall: ".data ++ r.avg_annual_rainfall_mm ++ " mm, Groundwater Level: ".data ++
  r.groundwater_level_m ++ " m".data

/-- Key normalisation of line 112: key.lower().replace(space, underscore). -/
def normKey (k : List Char) : List Char :=
  (k.map Char.toLower).map (fun c => if c == ' ' then '_' else c)

/-- The field-parsing loop of lines 109-112 over the parts of one document;
none models the ValueError raised when a part contains no ": ". -/
def parseParts : List (List Char) → Option (List (List Char × List Char))
  | [] => some []
  | part :: rest =>
    match splitSep1 ':' ' ' part with
    | (_, none) => none
    | (k, some v) => Option.map (fun fs => (normKey k, v) :: fs) (parseParts rest)

/-- Parsing one retrieved document into its field dictionary: split on ", "
then split each part on the first ": " (lines 108-112). -/
def parseFields (doc : List Char) : Option (List (List Char × List Char)) :=
  parseParts (splitSep ',' ' ' doc)

/-- Dictionary lookup in which the last binding of a key wins, matching
Python dict insertion order with overwriting. -/
def lookupLast (k : List Char) : List (List Char × List Char) → Option (List Char)
  | [] => none
  | kv :: rest =>
    match lookupLast k rest with
    | some v => some v
    | none => if kv.1 == k then some kv.2 else none

/-- The six display fields of one table row (lines 138-148). -/
structure Row where
  district : List Char
  year : List Char
  scenario : List Char
  rainfall : List Char
  groundwater_level : List Char
  population : List Char
deriving DecidableEq

/-- Display-agnostic content of a generate_response result: a plain
conversational string, or a table of rows with an optional chart payload of
labels and numeric rainfall values. -/
inductive Resp : Type
  | plain (msg : List Char)
  | table (rows : List Row) (chart : Option (List (List Char) × List Rat))
deriving DecidableEq

/-- Fixed greeting reply of line 95. -/
def greetingMsg : List Char :=
  "Hello! I\x27m a chatbot that provides district-level groundwater and rainfall data. Try asking something like \x27District names\x27.".data

/-- Fixed identity reply of line 97. -/
def identityMsg : List Char :=
  "I\x27m a District Information Chatbot, designed to provide data on districts like rainfall, groundwater levels, and population. Ask me about a specific district or data point, e.g., \x27District names\x27.".data

/-- Fallback reply of line 101, echoing the raw query. -/
def fallbackMsg (query : List Char) : List Char :=
  "Sorry, I couldn\x27t find relevant data for \x27".data ++ query ++
  "\x27. Please try a query like \x27Ariyalur rainfall in 2020\x27.".data

/-- The fixed greeting set of line 94. -/
def greetingSet : List (List Char) := ["hi".data, "hello".data, "hey".data]

/-- One chart entry built in the loop at lines 114-118: the label
year (scenario) and float of the rainfall string with " mm" removed. -/
def chartItem (fields : List (List Char × List Char)) : Option (List Char × Rat) :=
  match lookupLast "year".data fields, lookupLast "scenario".data fields,
        lookupLast "rainfall".data fields with
  | some y, some sc, some ra =>
    match pyFloat (stripMM ra) with
    | none => none
    | some v => some (y ++ " (".data ++ sc ++ ")".data, v)
  | _, _, _ => none

/-- One table row rendered at lines 139-148; none models the KeyError
raised when a display key is missing from the parsed fields. -/
def tableRow (fields : List (List Char × List Char)) : Option Row :=
  match lookupLast "district".data fields, lookupLast "year".data fields,
        lookupLast "scenario".data fields, lookupLast "rainfall".data fields,
        lookupLast "groundwater_level".data fields, lookupLast "population".data fields with
  | some d, some y, some sc, some ra, some g, some p => some ⟨d, y, sc, ra, g, p⟩
  | _, _, _, _, _, _ => none

/-- Body of the for-loop over retrieved documents (lines 108-118): parse
the document and, for an Ariyalur query, also build its chart entry. -/
def docStep (ariyalur : Bool) (doc : List Char) :
    Option (List (List Char × List Char) × List (List Char × Rat)) :=
  match parseFields doc with
  | none => none
  | some fields =>
    if ariyalur then
      match chartItem fields with
      | none => none
      | some ci => some (fields, [ci])
    else
      some (fields, [])

/-- Combined parse-and-display check for one document: none when the
document does not parse or lacks one of the six display keys. -/
def rowOf (doc : List Char) : Option Row :=
  match parseFields doc with
  | none => none
  | some fields => tableRow fields

/-- Rendering of lines 120-196 from the parsed loop results: the table of
rows (KeyError modelled by none) and the conditional chart payload built
from the collected chart entries. -/
def tableResp (ariyalur : Bool)
    (parsed : List (List (List Char × List Char) × List (List Char × Rat))) : Option Resp :=
  let chart_data := (parsed.map Prod.snd).flatten
  match mapOption tableRow (parsed.map Prod.fst) with
  | none => none
  | some rows =>
    some (Resp.table rows
      (if ariyalur && !chart_data.isEmpty then
        some (chart_data.map Prod.fst, chart_data.map Prod.snd)
      else none))

/-- The non-special-case path of generate_response (lines 103-196): run the
parsing loop over every retrieved document, then render table and chart. -/
def composeTable (ariyalur : Bool) (retrieved_docs : List (List Char)) : Option Resp :=
  match mapOption (docStep ariyalur) retrieved_docs with
  | none => none
  | some parsed => tableResp ariyalur parsed

/-- generate_response of lines 91-196 with HTML rendering abstracted to the
Resp structure; none models a raised exception. -/
def generate_response (query : List Char) (retrieved_docs : List (List Char))
    (data : List Record) : Option Resp :=
  let query_lower := pyStrip (pyLower query)
  if query_lower ∈ greetingSet then some (Resp.plain greetingMsg)
  else if query_lower = "who are you".data then some (Resp.plain identityMsg)
  else if retrieved_docs = [] then some (Resp.plain (fallbackMsg query))
  else composeTable (containsL "ariyalur".data query_lower) retrieved_docs

/-- FLT_MAX, the distance FAISS IndexFlatL2 reports in the unfilled result
slots (paired with index -1) when k exceeds the index population. -/
def fltMax : Rat := 340282346638528859811704183484516925440

/-- retrieve_documents of lines 73-88.  The opaque embedding model and the
FAISS search are summarised by the (index, distance) rows they return for
this query and k; list indexing follows Python semantics including negative
indices, and the result is the filtered texts in returned order. -/
def retrieve_documents (texts : List (List Char)) (search : List (Int × Rat))
    (threshold : Rat) : Option (List (List Char)) :=
  mapOption (fun p => pyIndex texts p.1)
    (search.filter (fun p => decide (p.2 < threshold)))

/-- Body of a /chat reply: a fixed string, a composed response, or the
error path of the surrounding except block. -/
inductive ChatBody : Type
  | text (msg : List Char)
  | rendered (r : Resp)
  | internalError
deriving DecidableEq

/-- The /chat handler of lines 212-231, returning status code and body.
The retrieval and composition stages are passed as parameters so that
their non-invocation on rejected input is expressible; a none query models
a request without a query field. -/
def chat (retrieve : List Char → Option (List (List Char)))
    (compose : List Char → List (List Char) → Option Resp)
    (query : Option (List Char)) : Nat × ChatBody :=
  match query with
  | none => (400, ChatBody.text "Please provide a query.".data)
  | some q =>
    if q = [] then (400, ChatBody.text "Please provide a query.".data)
    else
      let query_lower := pyStrip (pyLower q)
      if FORBIDDEN_KEYWORDS.any (fun kw => containsL kw query_lower) then
        (400, ChatBody.text "Wrong question you asked.".data)
      else
        match retrieve q with
        | none => (500, ChatBody.internalError)
        | some docs =>
          match compose q docs with
          | none => (500, ChatBody.internalError)
          | some r => (200, ChatBody.rendered r)

/-! ## General lemmas about the string and option helpers -/

theorem startsWith_iff (p s : List Char) : startsWith p s = true ↔ ∃ t, s = p ++ t := by
  induction p generalizing s with
  | nil => simp [startsWith]
  | cons a ps ih =>
    cases s with
    | nil =>
      simp only [startsWith, List.cons_append]
      constructor
      · intro h; exact absurd h (by simp)
      · rintro ⟨t, h⟩; exact absurd h (by simp)
    | cons c cs =>
      simp only [startsWith, Bool.and_eq_true, beq_iff_eq, ih, List.cons_append]
      constructor
      · rintro ⟨rfl, t, rfl⟩; exact ⟨t, rfl⟩
      · rintro ⟨t, h⟩
        injection h with h1 h2
        exact ⟨h1.symm, t, h2⟩

theorem containsL_iff (p s : List Char) : containsL p s = true ↔ ∃ a b, s = a ++ (p ++ b) := by
  induction s with
  | nil =>
    simp only [containsL, List.isEmpty_iff]
    constructor
    · rintro rfl; exact ⟨[], [], rfl⟩
    · rintro ⟨a, b, h⟩
      rcases List.append_eq_nil.mp h.symm with ⟨rfl, h2⟩
      rcases List.append_eq_nil.mp h2 with ⟨rfl, rfl⟩
      rfl
  | cons c cs ih =>
    simp only [containsL, Bool.or_eq_true, startsWith_iff, ih]
    constructor
    · rintro (⟨t, h⟩ | ⟨a, b, h⟩)
      · exact ⟨[], t, by simpa using h⟩
      · exact ⟨c :: a, b, by simp [h]⟩
    · rintro ⟨a, b, h⟩
      cases a with
      | nil => exact Or.inl ⟨b, by simpa using h⟩
      | cons a0 as =>
        injection h with h1 h2
        exact Or.inr ⟨as, b, h2⟩

theorem containsL_dropWhile (c : Char) (ps s : List Char) (hc : isPySpace c = false)
    (h : containsL (c :: ps) s = true) :
    containsL (c :: ps) (s.dropWhile isPySpace) = true := by
  induction s with
  | nil => simp [containsL] at h
  | cons a s' ih =>
    by_cases ha : isPySpace a = true
    · rw [List.dropWhile_cons_of_pos ha]
      apply ih
      rcases (Bool.or_eq_true _ _).mp h with hst | hco
      · exfalso
        rw [startsWith] at hst
        rcases (Bool.and_eq_true _ _).mp hst with ⟨hce, _⟩
        rw [beq_iff_eq] at hce
        rw [hce] at hc
        rw [ha] at hc
        exact absurd hc (by simp)
      · exact hco
    · rw [List.dropWhile_cons_of_neg ha]
      exact h

theorem containsL_reverse (p s : List Char) (h : containsL p s = true) :
    containsL p.reverse s.reverse = true := by
  rcases (containsL_iff p s).mp h with ⟨a, b, rfl⟩
  refine (containsL_iff _ _).mpr ⟨b.reverse, a.reverse, ?_⟩
  simp [List.reverse_append, List.append_assoc]

theorem containsL_pyStrip (p s : List Char) (hne : p ≠ [])
    (hh : ∀ c, p.head? = some c → isPySpace c = false)
    (hl : ∀ c, p.getLast? = some c → isPySpace c = false)
    (h : containsL p s = true) : containsL p (pyStrip s) = true := by
  obtain ⟨c, ps, rfl⟩ : ∃ c ps, p = c :: ps := by
    cases p with
    | nil => exact absurd rfl hne
    | cons c ps => exact ⟨c, ps, rfl⟩
  have h1 : containsL (c :: ps) (s.dropWhile isPySpace) = true :=
    containsL_dropWhile c ps s (hh c rfl) h
  have h2 : containsL (c :: ps).reverse (s.dropWhile isPySpace).reverse = true :=
    containsL_reverse _ _ h1
  obtain ⟨d, qs, hrev⟩ : ∃ d qs, (c :: ps).reverse = d :: qs := by
    cases hr : (c :: ps).reverse with
    | nil => exact absurd (List.reverse_eq_nil_iff.mp hr) (by simp)
    | cons d qs => exact ⟨d, qs, rfl⟩
  have hd : isPySpace d = false := by
    apply hl
    rw [← List.head?_reverse, hrev]
    rfl
  rw [hrev] at h2
  have h3 : containsL (d :: qs) (((s.dropWhile isPySpace).reverse).dropWhile isPySpace) = true :=
    containsL_dropWhile d qs _ hd h2
  have h4 := containsL_reverse _ _ h3
  rw [← hrev] at h4
  rw [List.reverse_reverse] at h4
  exact h4

theorem mapOption_eq_some_of {α β : Type} (f : α → Option β) (g : α → β) (l : List α)
    (h : ∀ a ∈ l, f a = some (g a)) : mapOption f l = some (l.map g) := by
  induction l with
  | nil => rfl
  | cons a as ih =>
    rw [mapOption, h a (List.mem_cons_self a as),
      ih (fun x hx => h x (List.mem_cons_of_mem _ hx))]
    rfl

theorem mapOption_length {α β : Type} (f : α → Option β) (l : List α) (bs : List β)
    (h : mapOption f l = some bs) : bs.length = l.length := by
  induction l generalizing bs with
  | nil =>
    rw [mapOption] at h
    injection h with h
    simp [← h]
  | cons a as ih =>
    rw [mapOption] at h
    cases hfa : f a with
    | none => rw [hfa] at h; exact absurd h (by simp)
    | some b =>
      rw [hfa] at h
      cases hmo : mapOption f as with
      | none => rw [hmo] at h; exact absurd h (by simp)
      | some bs' =>
        rw [hmo] at h
        injection h with h
        rw [← h]
        simp [ih bs' hmo]

theorem mapOption_mem {α β : Type} (f : α → Option β) (l : List α) (bs : List β) (a : α)
    (h : mapOption f l = some bs) (ha : a ∈ l) : ∃ b ∈ bs, f a = some b := by
  induction l generalizing bs with
  | nil => exact absurd ha (by simp)
  | cons x xs ih =>
    rw [mapOption] at h
    cases hfx : f x with
    | none => rw [hfx] at h; exact absurd h (by simp)
    | some b =>
      rw [hfx] at h
      cases hmo : mapOption f xs with
      | none => rw [hmo] at h; exact absurd h (by simp)
      | some bs' =>
        rw [hmo] at h
        injection h with h
        rcases List.mem_cons.mp ha with rfl | hmem
        · exact ⟨b, by rw [← h]; exact List.mem_cons_self _ _, hfx⟩
        · rcases ih bs' hmo hmem with ⟨b', hb', hfb'⟩
          exact ⟨b', by rw [← h]; exact List.mem_cons_of_mem _ hb', hfb'⟩

theorem mapOption_mem_rev {α β : Type} (f : α → Option β) (l : List α) (bs : List β) (b : β)
    (h : mapOption f l = some bs) (hb : b ∈ bs) : ∃ a ∈ l, f a = some b := by
  induction l generalizing bs with
  | nil =>
    rw [mapOption] at h
    injection h with h
    rw [← h] at hb
    exact absurd hb (by simp)
  | cons x xs ih =>
    rw [mapOption] at h
    cases hfx : f x with
    | none => rw [hfx] at h; exact absurd h (by simp)
    | some b0 =>
      rw [hfx] at h
      cases hmo : mapOption f xs with
      | none => rw [hmo] at h; exact absurd h (by simp)
      | some bs' =>
        rw [hmo] at h
        injection h with h
        rw [← h] at hb
        rcases List.mem_cons.mp hb with rfl | hmem
        · exact ⟨x, List.mem_cons_self _ _, hfx⟩
        · rcases ih bs' hmo hmem with ⟨a, ha, hfa⟩
          exact ⟨a, List.mem_cons_of_mem _ ha, hfa⟩

theorem mapOption_eq_none {α β : Type} (f : α → Option β) (l : List α) (a : α)
    (ha : a ∈ l) (hf : f a = none) : mapOption f l = none := by
  induction l with
  | nil => exact absurd ha (by simp)
  | cons x xs ih =>
    rcases List.mem_cons.mp ha with rfl | hmem
    · rw [mapOption, hf]
    · rw [mapOption]
      cases hfx : f x with
      | none => rfl
      | some b => rw [ih hmem]; rfl

/-! ## Lemmas about two-character separators and splitting -/

theorem splitSep_cons_sep (c1 c2 : Char) (ys : List Char) :
    splitSep c1 c2 (c1 :: c2 :: ys) = [] :: splitSep c1 c2 ys := by
  rw [splitSep]
  simp

theorem splitSep_ne_nil (c1 c2 : Char) (l : List Char) : splitSep c1 c2 l ≠ [] := by
  match l with
  | [] => simp [splitSep]
  | [c] => simp [splitSep]
  | a :: b :: rest =>
    rw [splitSep]
    by_cases h : (a == c1 && b == c2) = true
    · simp [h]
    · rw [if_neg h]
      cases splitSep c1 c2 (b :: rest) with
      | nil => simp
      | cons x xs => simp

theorem splitSep_of_not_hasSep (c1 c2 : Char) (l : List Char)
    (h : hasSep c1 c2 l = false) : splitSep c1 c2 l = [l] := by
  induction l with
  | nil => rfl
  | cons a tail ih =>
    cases tail with
    | nil => rfl
    | cons b rest =>
      rw [hasSep] at h
      rcases Bool.or_eq_false_iff.mp h with ⟨h1, h2⟩
      rw [splitSep, if_neg (by rw [h1]; exact Bool.false_ne_true), ih h2]

theorem splitSep_append (c1 c2 : Char) (xs ys : List Char)
    (hne : (c1 == c2) = false) (h : hasSep c1 c2 xs = false) :
    splitSep c1 c2 (xs ++ c1 :: c2 :: ys) = xs :: splitSep c1 c2 ys := by
  induction xs with
  | nil => exact splitSep_cons_sep c1 c2 ys
  | cons a tail ih =>
    cases tail with
    | nil =>
      have hcond : (a == c1 && c1 == c2) = false := by rw [hne]; simp
      rw [List.cons_append, List.nil_append, splitSep,
        if_neg (by rw [hcond]; exact Bool.false_ne_true), splitSep_cons_sep]
    | cons b rest =>
      rw [hasSep] at h
      rcases Bool.or_eq_false_iff.mp h with ⟨h1, h2⟩
      rw [List.cons_append, List.cons_append, splitSep,
        if_neg (by rw [h1]; exact Bool.false_ne_true), ← List.cons_append, ih h2]

theorem splitSep1_append (c1 c2 : Char) (xs ys : List Char)
    (hne : (c1 == c2) = false) (h : hasSep c1 c2 xs = false) :
    splitSep1 c1 c2 (xs ++ c1 :: c2 :: ys) = (xs, some ys) := by
  induction xs with
  | nil =>
    rw [List.nil_append, splitSep1]
    simp
  | cons a tail ih =>
    cases tail with
    | nil =>
      have hcond : (a == c1 && c1 == c2) = false := by rw [hne]; simp
      rw [List.cons_append, List.nil_append, splitSep1,
        if_neg (by rw [hcond]; exact Bool.false_ne_true)]
      have : splitSep1 c1 c2 (c1 :: c2 :: ys) = ([], some ys) := by rw [splitSep1]; simp
      rw [this]
    | cons b rest =>
      rw [hasSep] at h
      rcases Bool.or_eq_false_iff.mp h with ⟨h1, h2⟩
      rw [List.cons_append, List.cons_append, splitSep1,
        if_neg (by rw [h1]; exact Bool.false_ne_true), ← List.cons_append, ih h2]

theorem hasSep_append (c1 c2 : Char) (xs ys : List Char)
    (hx : hasSep c1 c2 xs = false) (hy : hasSep c1 c2 ys = false)
    (hlast : xs.getLast? ≠ some c1) : hasSep c1 c2 (xs ++ ys) = false := by
  induction xs with
  | nil => exact hy
  | cons a tail ih =>
    cases tail with
    | nil =>
      cases ys with
      | nil => exact hx
      | cons y ys' =>
        rw [List.cons_append, List.nil_append, hasSep]
        have ha : (a == c1) = false := by
          cases hac : a == c1 with
          | false => rfl
          | true =>
            exfalso
            apply hlast
            rw [beq_iff_eq] at hac
            rw [hac]
            rfl
        rw [ha]
        simp only [Bool.false_and, Bool.false_or]
        exact hy
    | cons b rest =>
      rw [hasSep] at hx
      rcases Bool.or_eq_false_iff.mp hx with ⟨h1, h2⟩
      rw [List.cons_append, List.cons_append, hasSep, h1]
      simp only [Bool.false_or]
      have := ih h2 (by rw [List.getLast?_cons_cons] at hlast; exact hlast)
      rw [List.cons_append] at this
      exact this

theorem splitSep_joinSep (c1 c2 : Char) (parts : List (List Char))
    (hne : (c1 == c2) = false) (hp : ∀ x ∈ parts, hasSep c1 c2 x = false)
    (h0 : parts ≠ []) : splitSep c1 c2 (joinSep c1 c2 parts) = parts := by
  induction parts with
  | nil => exact absurd rfl h0
  | cons x tail ih =>
    cases tail with
    | nil => exact splitSep_of_not_hasSep c1 c2 x (hp x (List.mem_cons_self _ _))
    | cons y rest =>
      rw [joinSep, splitSep_append c1 c2 x _ hne (hp x (List.mem_cons_self _ _)),
        ih (fun z hz => hp z (List.mem_cons_of_mem _ hz)) (by simp)]

/-! ## Claim C1: round trip between the text projector and the parser -/

set_option maxHeartbeats 1600000 in
/-- C1: For every Record whose rendered field values contain neither the
separator ", " nor the separator ": ", parsing the canonical text produced
by data_to_text (splitting on ", ", then on the first ": ", lower-casing
keys and replacing spaces with underscores) recovers every display field,
with the rainfall and groundwater values carrying their unit suffixes. -/
theorem round_trip_project_parse (r : Record)
    (hd1 : hasSep ',' ' ' r.district = false) (hd2 : hasSep ':' ' ' r.district = false)
    (ha1 : hasSep ',' ' ' r.lat = false) (ha2 : hasSep ':' ' ' r.lat = false)
    (ho1 : hasSep ',' ' ' r.lon = false) (ho2 : hasSep ':' ' ' r.lon = false)
    (hy1 : hasSep ',' ' ' r.year = false) (hy2 : hasSep ':' ' ' r.year = false)
    (hs1 : hasSep ',' ' ' r.scenario = false) (hs2 : hasSep ':' ' ' r.scenario = false)
    (hp1 : hasSep ',' ' ' r.population_estimate = false)
    (hp2 : hasSep ':' ' ' r.population_estimate = false)
    (hr1 : hasSep ',' ' ' (r.avg_annual_rainfall_mm ++ " mm".data) = false)
    (hr2 : hasSep ':' ' ' (r.avg_annual_rainfall_mm ++ " mm".data) = false)
    (hg1 : hasSep ',' ' ' (r.groundwater_level_m ++ " m".data) = false)
    (hg2 : hasSep ':' ' ' (r.groundwater_level_m ++ " m".data) = false) :
    ∃ fields, parseFields (data_to_text r) = some fields
      ∧ lookupLast "district".data fields = some r.district
      ∧ lookupLast "latitude".data fields = some r.lat
      ∧ lookupLast "longitude".data fields = some r.lon
      ∧ lookupLast "year".data fields = some r.year
      ∧ lookupLast "scenario".data fields = some r.scenario
      ∧ lookupLast "population".data fields = some r.population_estimate
      ∧ lookupLast "rainfall".data fields = some (r.avg_annual_rainfall_mm ++ " mm".data)
      ∧ lookupLast "groundwater_level".data fields = some (r.groundwater_level_m ++ " m".data) := by
  have hform : data_to_text r = joinSep ',' ' '
      ["District: ".data ++ r.district,
       "Latitude: ".data ++ r.lat,
       "Longitude: ".data ++ r.lon,
       "Year: ".data ++ r.year,
       "Scenario: ".data ++ r.scenario,
       "Population: ".data ++ r.population_estimate,
       "Rainfall: ".data ++ (r.avg_annual_rainfall_mm ++ " mm".data),
       "Groundwater Level: ".data ++ (r.groundwater_level_m ++ " m".data)] := by
    have s1 : ", Latitude: ".data = ',' :: ' ' :: "Latitude: ".data := rfl
    have s2 : ", Longitude: ".data = ',' :: ' ' :: "Longitude: ".data := rfl
    have s3 : ", Year: ".data = ',' :: ' ' :: "Year: ".data := rfl
    have s4 : ", Scenario: ".data = ',' :: ' ' :: "Scenario: ".data := rfl
    have s5 : ", Population: ".data = ',' :: ' ' :: "Population: ".data := rfl
    have s6 : ", Rainfall: ".data = ',' :: ' ' :: "Rainfall: ".data := rfl
    have s7 : " mm, Groundwater Level: ".data =
      " mm".data ++ (',' :: ' ' :: "Groundwater Level: ".data) := rfl
    simp only [data_to_text, joinSep, s1, s2, s3, s4, s5, s6, s7,
      List.cons_append, List.nil_append, List.append_assoc]
  have hsplit : splitSep ',' ' ' (data_to_text r) =
      ["District: ".data ++ r.district,
       "Latitude: ".data ++ r.lat,
       "Longitude: ".data ++ r.lon,
       "Year: ".data ++ r.year,
       "Scenario: ".data ++ r.scenario,
       "Population: ".data ++ r.population_estimate,
       "Rainfall: ".data ++ (r.avg_annual_rainfall_mm ++ " mm".data),
       "Groundwater Level: ".data ++ (r.groundwater_level_m ++ " m".data)] := by
    rw [hform]
    apply splitSep_joinSep ',' ' ' _ (by decide) _ (by simp)
    intro x hx
    simp only [List.mem_cons, List.not_mem_nil, or_false] at hx
    rcases hx with rfl | rfl | rfl | rfl | rfl | rfl | rfl | rfl
    · exact hasSep_append ',' ' ' _ _ (by decide) hd1 (by decide)
    · exact hasSep_append ',' ' ' _ _ (by decide) ha1 (by decide)
    · exact hasSep_append ',' ' ' _ _ (by decide) ho1 (by decide)
    · exact hasSep_append ',' ' ' _ _ (by decide) hy1 (by decide)
    · exact hasSep_append ',' ' ' _ _ (by decide) hs1 (by decide)
    · exact hasSep_append ',' ' ' _ _ (by decide) hp1 (by decide)
    · exact hasSep_append ',' ' ' _ _ (by decide) hr1 (by decide)
    · exact hasSep_append ',' ' ' _ _ (by decide) hg1 (by decide)
  have e1 : splitSep1 ':' ' ' ("District: ".data ++ r.district) =
      ("District".data, some r.district) := by
    rw [show "District: ".data ++ r.district = "District".data ++ ':' :: ' ' :: r.district from rfl]
    exact splitSep1_append ':' ' ' _ _ (by decide) (by decide)
  have e2 : splitSep1 ':' ' ' ("Latitude: ".data ++ r.lat) =
      ("Latitude".data, some r.lat) := by
    rw [show "Latitude: ".data ++ r.lat = "Latitude".data ++ ':' :: ' ' :: r.lat from rfl]
    exact splitSep1_append ':' ' ' _ _ (by decide) (by decide)
  have e3 : splitSep1 ':' ' ' ("Longitude: ".data ++ r.lon) =
      ("Longitude".data, some r.lon) := by
    rw [show "Longitude: ".data ++ r.lon = "Longitude".data ++ ':' :: ' ' :: r.lon from rfl]
    exact splitSep1_append ':' ' ' _ _ (by decide) (by decide)
  have e4 : splitSep1 ':' ' ' ("Year: ".data ++ r.year) =
      ("Year".data, some r.year) := by
    rw [show "Year: ".data ++ r.year = "Year".data ++ ':' :: ' ' :: r.year from rfl]
    exact splitSep1_append ':' ' ' _ _ (by decide) (by decide)
  have e5 : splitSep1 ':' ' ' ("Scenario: ".data ++ r.scenario) =
      ("Scenario".data, some r.scenario) := by
    rw [show "Scenario: ".data ++ r.scenario = "Scenario".data ++ ':' :: ' ' :: r.scenario from rfl]
    exact splitSep1_append ':' ' ' _ _ (by decide) (by decide)
  have e6 : splitSep1 ':' ' ' ("Population: ".data ++ r.population_estimate) =
      ("Population".data, some r.population_estimate) := by
    rw [show "Population: ".data ++ r.population_estimate =
      "Population".data ++ ':' :: ' ' :: r.population_estimate from rfl]
    exact splitSep1_append ':' ' ' _ _ (by decide) (by decide)
  have e7 : splitSep1 ':' ' ' ("Rainfall: ".data ++ (r.avg_annual_rainfall_mm ++ " mm".data)) =
      ("Rainfall".data, some (r.avg_annual_rainfall_mm ++ " mm".data)) := by
    rw [show "Rainfall: ".data ++ (r.avg_annual_rainfall_mm ++ " mm".data) =
      "Rainfall".data ++ ':' :: ' ' :: (r.avg_annual_rainfall_mm ++ " mm".data) from rfl]
    exact splitSep1_append ':' ' ' _ _ (by decide) (by decide)
  have e8 : splitSep1 ':' ' '
        ("Groundwater Level: ".data ++ (r.groundwater_level_m ++ " m".data)) =
      ("Groundwater Level".data, some (r.groundwater_level_m ++ " m".data)) := by
    rw [show "Groundwater Level: ".data ++ (r.groundwater_level_m ++ " m".data) =
      "Groundwater Level".data ++ ':' :: ' ' :: (r.groundwater_level_m ++ " m".data) from rfl]
    exact splitSep1_append ':' ' ' _ _ (by decide) (by decide)
  have nk1 : normKey "District".data = "district".data := by decide
  have nk2 : normKey "Latitude".data = "latitude".data := by decide
  have nk3 : normKey "Longitude".data = "longitude".data := by decide
  have nk4 : normKey "Year".data = "year".data := by decide
  have nk5 : normKey "Scenario".data = "scenario".data := by decide
  have nk6 : normKey "Population".data = "population".data := by decide
  have nk7 : normKey "Rainfall".data = "rainfall".data := by decide
  have nk8 : normKey "Groundwater Level".data = "groundwater_level".data := by decide
  refine ⟨[("district".data, r.district), ("latitude".data, r.lat), ("longitude".data, r.lon),
    ("year".data, r.year), ("scenario".data, r.scenario),
    ("population".data, r.population_estimate),
    ("rainfall".data, r.avg_annual_rainfall_mm ++ " mm".data),
    ("groundwater_level".data, r.groundwater_level_m ++ " m".data)], ?_,
    rfl, rfl, rfl, rfl, rfl, rfl, rfl, rfl⟩
  rw [parseFields, hsplit]
  simp only [parseParts, e1, e2, e3, e4, e5, e6, e7, e8, nk1, nk2, nk3, nk4, nk5, nk6, nk7, nk8,
    Option.map]

/-- Witness for C1 at a concrete record. -/
theorem round_trip_project_parse_witness :
    (hasSep ',' ' ' "Ariyalur".data = false ∧ hasSep ':' ' ' "Ariyalur".data = false
      ∧ hasSep ',' ' ' "11.14".data = false ∧ hasSep ':' ' ' "11.14".data = false
      ∧ hasSep ',' ' ' "79.08".data = false ∧ hasSep ':' ' ' "79.08".data = false
      ∧ hasSep ',' ' ' "2020".data = false ∧ hasSep ':' ' ' "2020".data = false
      ∧ hasSep ',' ' ' "normal".data = false ∧ hasSep ':' ' ' "normal".data = false
      ∧ hasSep ',' ' ' "754894".data = false ∧ hasSep ':' ' ' "754894".data = false
      ∧ hasSep ',' ' ' ("1050.5".data ++ " mm".data) = false
      ∧ hasSep ':' ' ' ("1050.5".data ++ " mm".data) = false
      ∧ hasSep ',' ' ' ("6.2".data ++ " m".data) = false
      ∧ hasSep ':' ' ' ("6.2".data ++ " m".data) = false)
    ∧ (∃ fields,
        parseFields (data_to_text ⟨"Ariyalur".data, "11.14".data, "79.08".data, "2020".data,
          "normal".data, "754894".data, "1050.5".data, "6.2".data⟩) = some fields
        ∧ lookupLast "district".data fields = some "Ariyalur".data
        ∧ lookupLast "latitude".data fields = some "11.14".data
        ∧ lookupLast "longitude".data fields = some "79.08".data
        ∧ lookupLast "year".data fields = some "2020".data
        ∧ lookupLast "scenario".data fields = some "normal".data
        ∧ lookupLast "population".data fields = some "754894".data
        ∧ lookupLast "rainfall".data fields = some ("1050.5".data ++ " mm".data)
        ∧ lookupLast "groundwater_level".data fields = some ("6.2".data ++ " m".data)) :=
  ⟨by decide,
    round_trip_project_parse
      ⟨"Ariyalur".data, "11.14".data, "79.08".data, "2020".data,
        "normal".data, "754894".data, "1050.5".data, "6.2".data⟩
      (by decide) (by decide) (by decide) (by decide) (by decide) (by decide)
      (by decide) (by decide) (by decide) (by decide) (by decide) (by decide)
      (by decide) (by decide) (by decide) (by decide)⟩

/-! ## Claim C2: the gatekeeper refuses deny-listed queries before retrieval -/

/-- C2: Every query containing a deny-listed term as a case-insensitive
substring is answered with the fixed refusal string, with status 400, no
matter what the retrieval and composition stages would do; in particular
neither stage is invoked on such a query. -/
theorem gatekeeper_refusal
    (retrieve : List Char → Option (List (List Char)))
    (compose : List Char → List (List Char) → Option Resp)
    (q kw : List Char) (hmem : kw ∈ FORBIDDEN_KEYWORDS)
    (h : containsL kw (pyLower q) = true) :
    chat retrieve compose (some q) = (400, ChatBody.text "Wrong question you asked.".data) := by
  have hkw : kw ≠ [] ∧ Option.all (fun c => !isPySpace c) kw.head? = true
      ∧ Option.all (fun c => !isPySpace c) kw.getLast? = true := by
    fin_cases hmem <;> exact ⟨by decide, by decide, by decide⟩
  have hq : q ≠ [] := by
    intro hq0
    rw [hq0] at h
    rw [show pyLower [] = [] from rfl] at h
    rw [containsL] at h
    exact hkw.1 (List.isEmpty_iff.mp h)
  have hstrip : containsL kw (pyStrip (pyLower q)) = true := by
    apply containsL_pyStrip kw (pyLower q) hkw.1 _ _ h
    · intro c hc
      have := hkw.2.1
      rw [hc] at this
      rw [Option.all_some] at this
      simpa using this
    · intro c hc
      have := hkw.2.2
      rw [hc] at this
      rw [Option.all_some] at this
      simpa using this
  rw [chat, if_neg hq]
  rw [if_pos]
  exact List.any_eq_true.mpr ⟨kw, hmem, hstrip⟩

/-- Witness for C2 at a concrete query containing the keyword jailbreak. -/
theorem gatekeeper_refusal_witness :
    ("jailbreak".data ∈ FORBIDDEN_KEYWORDS
      ∧ containsL "jailbreak".data (pyLower "Please JAILBREAK the data".data) = true)
    ∧ chat (fun _ => some []) (fun _ _ => none) (some "Please JAILBREAK the data".data)
        = (400, ChatBody.text "Wrong question you asked.".data) :=
  ⟨⟨by decide, by decide⟩,
    gatekeeper_refusal (fun _ => some []) (fun _ _ => none)
      "Please JAILBREAK the data".data "jailbreak".data (by decide) (by decide)⟩

/-! ## Claims C3, C4, C5: the retriever -/

theorem pyIndex_of_valid {α : Type} (l : List α) (i : Int) (d : α)
    (h0 : 0 ≤ i) (hlt : i.toNat < l.length) : pyIndex l i = some (l.getD i.toNat d) := by
  rw [pyIndex]
  simp only [if_neg (not_lt.mpr h0)]
  rw [List.getD_eq_getElem?_getD, List.getElem?_eq_getElem hlt]
  rfl

/-- C3: retrieve_documents keeps exactly the candidates whose distance is
strictly below the threshold, in the order the index returned them, and
yields the empty list rather than an error when nothing passes. -/
theorem retrieve_documents_filter (texts : List (List Char)) (search : List (Int × Rat)) (t : Rat)
    (hv : ∀ p ∈ search, 0 ≤ p.1 ∧ p.1.toNat < texts.length) :
    retrieve_documents texts search t
        = some ((search.filter (fun p => decide (p.2 < t))).map (fun p => texts.getD p.1.toNat []))
    ∧ ((∀ p ∈ search, ¬ p.2 < t) → retrieve_documents texts search t = some [])
    ∧ (List.Pairwise (fun a b => a.2 ≤ b.2) search →
        List.Pairwise (fun a b => a.2 ≤ b.2) (search.filter (fun p => decide (p.2 < t)))) := by
  have hmain : retrieve_documents texts search t
      = some ((search.filter (fun p => decide (p.2 < t))).map (fun p => texts.getD p.1.toNat [])) := by
    rw [retrieve_documents]
    apply mapOption_eq_some_of
    intro p hp
    have hps := List.mem_of_mem_filter hp
    exact pyIndex_of_valid texts p.1 [] (hv p hps).1 (hv p hps).2
  refine ⟨hmain, ?_, ?_⟩
  · intro hnone
    rw [hmain]
    have hnil : search.filter (fun p => decide (p.2 < t)) = [] := by
      apply List.filter_eq_nil_iff.mpr
      intro p hp
      simpa using hnone p hp
    rw [hnil]
    rfl
  · intro hsorted
    exact List.Pairwise.sublist (List.filter_sublist _) hsorted

/-- Witness for C3 at a concrete index response. -/
theorem retrieve_documents_filter_witness :
    (∀ p ∈ [((0 : Int), (0 : Rat)), ((1 : Int), (2 : Rat))],
        0 ≤ p.1 ∧ p.1.toNat < (["a".data, "b".data] : List (List Char)).length)
    ∧ retrieve_documents ["a".data, "b".data] [((0 : Int), (0 : Rat)), ((1 : Int), (2 : Rat))] 1
        = some (([((0 : Int), (0 : Rat)), ((1 : Int), (2 : Rat))].filter
            (fun p => decide (p.2 < 1))).map
              (fun p => (["a".data, "b".data] : List (List Char)).getD p.1.toNat [])) :=
  ⟨by decide,
    (retrieve_documents_filter ["a".data, "b".data]
      [((0 : Int), (0 : Rat)), ((1 : Int), (2 : Rat))] 1 (by decide)).1⟩

/-- C4: For a fixed query and k (hence a fixed index response), every
document retrieved under threshold t1 is also retrieved under any larger
threshold t2: the result set is monotone in the threshold. -/
theorem retrieve_documents_threshold_mono (texts : List (List Char))
    (search : List (Int × Rat)) (t1 t2 : Rat) (h12 : t1 ≤ t2) (d1 d2 : List (List Char))
    (h1 : retrieve_documents texts search t1 = some d1)
    (h2 : retrieve_documents texts search t2 = some d2) :
    ∀ x ∈ d1, x ∈ d2 := by
  intro x hx
  rw [retrieve_documents] at h1 h2
  rcases mapOption_mem_rev _ _ _ _ h1 hx with ⟨p, hpf, hpx⟩
  have hps : p ∈ search := List.mem_of_mem_filter hpf
  have hpt1 : decide (p.2 < t1) = true := (List.mem_filter.mp hpf).2
  have hpt2 : p ∈ search.filter (fun p => decide (p.2 < t2)) := by
    refine List.mem_filter.mpr ⟨hps, ?_⟩
    simp only [decide_eq_true_eq] at hpt1 ⊢
    exact lt_of_lt_of_le hpt1 h12
  rcases mapOption_mem _ _ _ p h2 hpt2 with ⟨b, hb, hfb⟩
  rw [hpx] at hfb
  injection hfb with hfb
  rw [← hfb] at hb
  exact hb

/-- Witness for C4 at concrete thresholds 1 and 3. -/
theorem retrieve_documents_threshold_mono_witness :
    ((1 : Rat) ≤ 3
      ∧ retrieve_documents ["a".data, "b".data]
          [((0 : Int), (0 : Rat)), ((1 : Int), (2 : Rat))] 1 = some ["a".data]
      ∧ retrieve_documents ["a".data, "b".data]
          [((0 : Int), (0 : Rat)), ((1 : Int), (2 : Rat))] 3
          = some ["a".data, "b".data]
      ∧ "a".data ∈ ["a".data])
    ∧ "a".data ∈ ["a".data, "b".data] :=
  ⟨⟨by decide, by decide, by decide, by decide⟩,
    retrieve_documents_threshold_mono ["a".data, "b".data]
      [((0 : Int), (0 : Rat)), ((1 : Int), (2 : Rat))] 1 3 (by decide)
      ["a".data] ["a".data, "b".data] (by decide) (by decide) "a".data (by decide)⟩

/-- C5: When k exceeds the index population, FAISS pads the response with
sentinel rows whose index is -1 and whose distance is FLT_MAX; as long as
the threshold does not exceed FLT_MAX those rows are filtered out, so the
result equals the one for the genuine rows alone: only canonical texts at
valid positions, each position used at most once, and never a text chosen
through the sentinel position. -/
theorem retrieve_documents_k_overflow (texts : List (List Char))
    (found pad : List (Int × Rat)) (t : Rat)
    (hpad : ∀ p ∈ pad, p.1 = -1 ∧ p.2 = fltMax)
    (ht : t ≤ fltMax)
    (hv : ∀ p ∈ found, 0 ≤ p.1 ∧ p.1.toNat < texts.length)
    (hnd : (found.map (fun p => p.1)).Nodup) :
    retrieve_documents texts (found ++ pad) t = retrieve_documents texts found t
    ∧ retrieve_documents texts found t
        = some ((found.filter (fun p => decide (p.2 < t))).map (fun p => texts.getD p.1.toNat []))
    ∧ ((found.filter (fun p => decide (p.2 < t))).map (fun p => p.1)).Nodup := by
  have hpadnil : pad.filter (fun p => decide (p.2 < t)) = [] := by
    apply List.filter_eq_nil_iff.mpr
    intro p hp
    simp only [decide_eq_true_eq]
    rw [(hpad p hp).2]
    exact not_lt.mpr ht
  refine ⟨?_, ?_, ?_⟩
  · rw [retrieve_documents, retrieve_documents, List.filter_append, hpadnil, List.append_nil]
  · rw [retrieve_documents]
    apply mapOption_eq_some_of
    intro p hp
    have hps := List.mem_of_mem_filter hp
    exact pyIndex_of_valid texts p.1 [] (hv p hps).1 (hv p hps).2
  · exact List.Nodup.sublist (List.Sublist.map _ (List.filter_sublist _)) hnd

/-- Witness for C5: a two-record index asked for more results than it
holds, with the deployed threshold 1.0. -/
theorem retrieve_documents_k_overflow_witness :
    ((∀ p ∈ [((-1 : Int), fltMax)], p.1 = -1 ∧ p.2 = fltMax)
      ∧ (1 : Rat) ≤ fltMax
      ∧ (∀ p ∈ [((0 : Int), (0 : Rat))],
          0 ≤ p.1 ∧ p.1.toNat < (["a".data, "b".data] : List (List Char)).length)
      ∧ ([((0 : Int), (0 : Rat))].map (fun p => p.1)).Nodup)
    ∧ retrieve_documents ["a".data, "b".data]
        ([((0 : Int), (0 : Rat))] ++ [((-1 : Int), fltMax)]) 1
      = retrieve_documents ["a".data, "b".data] [((0 : Int), (0 : Rat))] 1 :=
  ⟨⟨by decide, by decide, by decide, by decide⟩,
    (retrieve_documents_k_overflow ["a".data, "b".data] [((0 : Int), (0 : Rat))]
      [((-1 : Int), fltMax)] 1 (by decide) (by decide) (by decide) (by decide)).1⟩

/-! ## Lemmas about the response composer -/

theorem docStep_inv (ar : Bool) (doc : List Char)
    (pr : List (List Char × List Char) × List (List Char × Rat))
    (h : docStep ar doc = some pr) :
    parseFields doc = some pr.1
    ∧ (ar = true → ∃ ci, chartItem pr.1 = some ci ∧ pr.2 = [ci])
    ∧ (ar = false → pr.2 = []) := by
  cases hp : parseFields doc with
  | none =>
    simp only [docStep, hp] at h
    exact absurd h (by simp)
  | some fields =>
    cases ar with
    | false =>
      simp only [docStep, hp] at h
      rw [if_neg (by simp)] at h
      injection h with h
      refine ⟨by rw [← h], by intro hx; exact absurd hx (by simp), ?_⟩
      intro hx
      rw [← h]
    | true =>
      simp only [docStep, hp] at h
      rw [if_pos trivial] at h
      cases hc : chartItem fields with
      | none =>
        rw [hc] at h
        simp at h
      | some ci =>
        rw [hc] at h
        injection h with h
        refine ⟨by rw [← h], ?_, by intro hx; exact absurd hx (by simp)⟩
        intro hx
        exact ⟨ci, by rw [← h]; exact hc, by rw [← h]⟩

theorem chartItem_shape (fields : List (List Char × List Char)) (ci : List Char × Rat)
    (h : chartItem fields = some ci) :
    ∃ y sc v, ci = (y ++ " (".data ++ sc ++ ")".data, v) := by
  cases hy : lookupLast "year".data fields with
  | none =>
    simp only [chartItem, hy] at h
    exact absurd h (by simp)
  | some y =>
    cases hs : lookupLast "scenario".data fields with
    | none =>
      simp only [chartItem, hy, hs] at h
      exact absurd h (by simp)
    | some sc =>
      cases hra : lookupLast "rainfall".data fields with
      | none =>
        simp only [chartItem, hy, hs, hra] at h
        exact absurd h (by simp)
      | some ra =>
        cases hf : pyFloat (stripMM ra) with
        | none =>
          simp only [chartItem, hy, hs, hra, hf] at h
          exact absurd h (by simp)
        | some v =>
          simp only [chartItem, hy, hs, hra, hf] at h
          injection h with h
          exact ⟨y, sc, v, by rw [← h]⟩

theorem flatten_length_of_singletons {α : Type} (L : List (List α))
    (h : ∀ x ∈ L, x.length = 1) : L.flatten.length = L.length := by
  induction L with
  | nil => rfl
  | cons x xs ih =>
    rw [List.flatten_cons, List.length_append, List.length_cons,
      ih (fun z hz => h z (List.mem_cons_of_mem _ hz)), h x (List.mem_cons_self _ _)]
    exact Nat.add_comm 1 xs.length

/-! ## Claims C6 and C7: fixed replies of the response composer -/

/-- C6: The composer checks its special cases first: a query whose
lower-cased, trimmed form lies in the fixed greeting set gets the fixed
greeting reply, and one equal to the identity question gets the fixed
identity reply, both regardless of the retrieved documents and with no
table. -/
theorem greeting_identity_priority :
    (∀ (query : List Char) (docs : List (List Char)) (data : List Record),
        pyStrip (pyLower query) ∈ greetingSet →
        generate_response query docs data = some (Resp.plain greetingMsg))
    ∧ (∀ (query : List Char) (docs : List (List Char)) (data : List Record),
        pyStrip (pyLower query) = "who are you".data →
        generate_response query docs data = some (Resp.plain identityMsg)) := by
  constructor
  · intro query docs data hg
    simp only [generate_response]
    rw [if_pos hg]
  · intro query docs data hw
    simp only [generate_response]
    rw [if_neg (by rw [hw]; decide), if_pos hw]

/-- Witness for C6 at the queries hello and Who are you. -/
theorem greeting_identity_priority_witness :
    (pyStrip (pyLower "hello".data) ∈ greetingSet
      ∧ generate_response "hello".data ["x".data] [] = some (Resp.plain greetingMsg))
    ∧ (pyStrip (pyLower " Who are you ".data) = "who are you".data
      ∧ generate_response " Who are you ".data ["x".data] [] = some (Resp.plain identityMsg)) :=
  ⟨⟨by decide, greeting_identity_priority.1 "hello".data ["x".data] [] (by decide)⟩,
    ⟨by decide, greeting_identity_priority.2 " Who are you ".data ["x".data] [] (by decide)⟩⟩

/-- C7: For a query that is neither a greeting nor the identity question,
an empty retrieved set yields the fixed no-data fallback, which contains
the original, non-normalised query text verbatim, and carries no table. -/
theorem empty_retrieval_fallback (query : List Char) (docs : List (List Char))
    (data : List Record)
    (hg : pyStrip (pyLower query) ∉ greetingSet)
    (hw : pyStrip (pyLower query) ≠ "who are you".data)
    (he : docs = []) :
    generate_response query docs data = some (Resp.plain (fallbackMsg query))
    ∧ containsL query (fallbackMsg query) = true := by
  constructor
  · simp only [generate_response]
    rw [if_neg hg, if_neg hw, if_pos he]
  · refine (containsL_iff _ _).mpr
      ⟨"Sorry, I couldn\x27t find relevant data for \x27".data,
        "\x27. Please try a query like \x27Ariyalur rainfall in 2020\x27.".data, ?_⟩
    rw [fallbackMsg]
    exact List.append_assoc _ _ _

/-- Witness for C7 at the query xyzzy quux with nothing retrieved. -/
theorem empty_retrieval_fallback_witness :
    (pyStrip (pyLower "xyzzy quux".data) ∉ greetingSet
      ∧ pyStrip (pyLower "xyzzy quux".data) ≠ "who are you".data
      ∧ ([] : List (List Char)) = [])
    ∧ generate_response "xyzzy quux".data [] []
        = some (Resp.plain (fallbackMsg "xyzzy quux".data))
    ∧ containsL "xyzzy quux".data (fallbackMsg "xyzzy quux".data) = true :=
  ⟨⟨by decide, by decide, rfl⟩,
    empty_retrieval_fallback "xyzzy quux".data [] [] (by decide) (by decide) rfl⟩

/-! ## Claim C8: the chart payload -/

/-- C8: On the general path with a non-empty retrieved set, a chart payload
is present exactly when the normalised query contains the recognised
district token ariyalur; when present it has one label per chart row with
the shape year (scenario), its value series is numeric, and the label and
value lists have equal length, matching the number of table rows. -/
theorem chart_payload_spec (query : List Char) (docs : List (List Char)) (data : List Record)
    (rows : List Row) (chart : Option (List (List Char) × List Rat))
    (hg : pyStrip (pyLower query) ∉ greetingSet)
    (hw : pyStrip (pyLower query) ≠ "who are you".data)
    (hne : docs ≠ [])
    (hr : generate_response query docs data = some (Resp.table rows chart)) :
    chart.isSome = containsL "ariyalur".data (pyStrip (pyLower query))
    ∧ ∀ ls vs, chart = some (ls, vs) →
        ls.length = vs.length ∧ ls.length = rows.length
        ∧ ∀ l ∈ ls, ∃ y sc, l = y ++ " (".data ++ sc ++ ")".data := by
  simp only [generate_response] at hr
  rw [if_neg hg, if_neg hw, if_neg hne] at hr
  cases hmo : mapOption (docStep (containsL "ariyalur".data (pyStrip (pyLower query)))) docs with
  | none =>
    rw [composeTable, hmo] at hr
    exact absurd hr (by simp)
  | some parsed =>
    rw [composeTable] at hr
    rw [hmo] at hr
    cases hmt : mapOption tableRow (parsed.map Prod.fst) with
    | none =>
      simp only [tableResp, hmt] at hr
      exact absurd hr (by simp)
    | some tr =>
      simp only [tableResp, hmt] at hr
      injection hr with hr
      injection hr with e1 e2
      cases hA : containsL "ariyalur".data (pyStrip (pyLower query)) with
      | false =>
        rw [hA] at e2
        simp only [Bool.false_and, Bool.false_eq_true, if_false] at e2
        constructor
        · rw [← e2]
          rfl
        · intro ls vs hc
          rw [← e2] at hc
          exact absurd hc (by simp)
      | true =>
        rw [hA, Bool.true_and] at e2
        have hpne : parsed ≠ [] := by
          intro h0
          have hl := mapOption_length _ _ _ hmo
          rw [h0] at hl
          exact hne (List.length_eq_zero.mp hl.symm)
        have hsing : ∀ x ∈ parsed.map Prod.snd, x.length = 1 := by
          intro x hx
          rcases List.mem_map.mp hx with ⟨pr, hpr, rfl⟩
          rcases mapOption_mem_rev _ _ _ _ hmo hpr with ⟨d, hd, hstep⟩
          rcases docStep_inv _ _ _ hstep with ⟨_, h2, _⟩
          rcases h2 hA with ⟨ci, _, hci⟩
          rw [hci]
          rfl
        have hlen : (parsed.map Prod.snd).flatten.length = parsed.length := by
          rw [flatten_length_of_singletons _ hsing, List.length_map]
        have hcdne : (parsed.map Prod.snd).flatten ≠ [] := by
          intro h0
          rw [h0] at hlen
          exact hpne (List.length_eq_zero.mp hlen.symm)
        have hemp : (!(parsed.map Prod.snd).flatten.isEmpty) = true := by
          have h1 : (parsed.map Prod.snd).flatten.isEmpty = false := by
            cases hq : (parsed.map Prod.snd).flatten.isEmpty
            · rfl
            · exact absurd (List.isEmpty_iff.mp hq) hcdne
          rw [h1]
          rfl
        rw [if_pos hemp] at e2
        constructor
        · rw [← e2]
          rfl
        · intro ls vs hc
          rw [← e2] at hc
          injection hc with hc
          injection hc with hls hvs
          refine ⟨by rw [← hls, ← hvs, List.length_map, List.length_map], ?_, ?_⟩
          · rw [← hls, List.length_map, hlen, ← e1,
              mapOption_length _ _ _ hmt, List.length_map]
          · intro l hl
            rw [← hls] at hl
            rcases List.mem_map.mp hl with ⟨ci, hci, rfl⟩
            rcases List.mem_flatten.mp hci with ⟨ys, hys, hciys⟩
            rcases List.mem_map.mp hys with ⟨pr, hpr, rfl⟩
            rcases mapOption_mem_rev _ _ _ _ hmo hpr with ⟨d, hd, hstep⟩
            rcases docStep_inv _ _ _ hstep with ⟨_, h2, _⟩
            rcases h2 hA with ⟨ci0, hci0, hsnd⟩
            rw [hsnd] at hciys
            have hcc : ci = ci0 := by simpa using hciys
            rcases chartItem_shape _ _ hci0 with ⟨y, sc, v, hform⟩
            exact ⟨y, sc, by rw [hcc, hform]⟩

/-- Witness for C8 at the Ariyalur query over one matching record. -/
theorem chart_payload_spec_witness :
    (pyStrip (pyLower "ariyalur rainfall in 2020".data) ∉ greetingSet
      ∧ pyStrip (pyLower "ariyalur rainfall in 2020".data) ≠ "who are you".data
      ∧ ([data_to_text ⟨"Ariyalur".data, "11.14".data, "79.08".data, "2020".data,
            "normal".data, "754894".data, "1050.5".data, "6.2".data⟩] : List (List Char)) ≠ []
      ∧ generate_response "ariyalur rainfall in 2020".data
          [data_to_text ⟨"Ariyalur".data, "11.14".data, "79.08".data, "2020".data,
            "normal".data, "754894".data, "1050.5".data, "6.2".data⟩] []
          = some (Resp.table
              [⟨"Ariyalur".data, "2020".data, "normal".data, "1050.5 mm".data,
                "6.2 m".data, "754894".data⟩]
              (some (["2020 (normal)".data], [mkRat 10505 10]))))
    ∧ (some (["2020 (normal)".data], [mkRat 10505 10]) :
          Option (List (List Char) × List Rat)).isSome
        = containsL "ariyalur".data (pyStrip (pyLower "ariyalur rainfall in 2020".data))
    ∧ ∀ ls vs, (some (["2020 (normal)".data], [mkRat 10505 10]) :
          Option (List (List Char) × List Rat)) = some (ls, vs) →
        ls.length = vs.length
        ∧ ls.length = ([⟨"Ariyalur".data, "2020".data, "normal".data, "1050.5 mm".data,
            "6.2 m".data, "754894".data⟩] : List Row).length
        ∧ ∀ l ∈ ls, ∃ y sc, l = y ++ " (".data ++ sc ++ ")".data :=
  ⟨⟨by decide, by decide, by decide, by decide⟩,
    chart_payload_spec "ariyalur rainfall in 2020".data
      [data_to_text ⟨"Ariyalur".data, "11.14".data, "79.08".data, "2020".data,
        "normal".data, "754894".data, "1050.5".data, "6.2".data⟩] []
      [⟨"Ariyalur".data, "2020".data, "normal".data, "1050.5 mm".data,
        "6.2 m".data, "754894".data⟩]
      (some (["2020 (normal)".data], [mkRat 10505 10]))
      (by decide) (by decide) (by decide) (by decide)⟩

/-! ## Claim C9: grammar violations abort the whole composition -/

/-- C9: On the general path, if any retrieved document fails to parse into
the expected display key set, the whole composition fails with an internal
error (none): no response is produced in which the offending document is
silently dropped from the table. -/
theorem grammar_violation_aborts (query : List Char) (docs : List (List Char))
    (data : List Record) (doc : List Char)
    (hg : pyStrip (pyLower query) ∉ greetingSet)
    (hw : pyStrip (pyLower query) ≠ "who are you".data)
    (hd : doc ∈ docs) (hbad : rowOf doc = none) :
    generate_response query docs data = none := by
  have hne : docs ≠ [] := by
    intro h0
    rw [h0] at hd
    exact absurd hd (by simp)
  simp only [generate_response]
  rw [if_neg hg, if_neg hw, if_neg hne]
  cases hmo : mapOption (docStep (containsL "ariyalur".data (pyStrip (pyLower query)))) docs with
  | none => rw [composeTable, hmo]
  | some parsed =>
    rw [composeTable, hmo]
    rcases mapOption_mem _ _ _ doc hmo hd with ⟨pr, hpr, hstep⟩
    rcases docStep_inv _ _ _ hstep with ⟨hparse, _, _⟩
    cases hp : parseFields doc with
    | none =>
      rw [hp] at hparse
      exact absurd hparse (by simp)
    | some fields =>
      rw [hp] at hparse
      injection hparse with hparse
      simp only [rowOf, hp] at hbad
      have hmemrow : pr.1 ∈ parsed.map Prod.fst := List.mem_map_of_mem _ hpr
      have hnone : mapOption tableRow (parsed.map Prod.fst) = none := by
        apply mapOption_eq_none _ _ pr.1 hmemrow
        rw [← hparse]
        exact hbad
      simp only [tableResp, hnone]

/-- Witness for C9 at a document with no separator grammar at all. -/
theorem grammar_violation_aborts_witness :
    (pyStrip (pyLower "district data".data) ∉ greetingSet
      ∧ pyStrip (pyLower "district data".data) ≠ "who are you".data
      ∧ "nonsense".data ∈ (["nonsense".data] : List (List Char))
      ∧ rowOf "nonsense".data = none)
    ∧ generate_response "district data".data ["nonsense".data] [] = none :=
  ⟨⟨by decide, by decide, by decide, by decide⟩,
    grammar_violation_aborts "district data".data ["nonsense".data] [] "nonsense".data
      (by decide) (by decide) (by decide) (by decide)⟩

/-! ## Claim C10: missing or empty query -/

/-- C10: A /chat request whose query field is missing or empty is answered
with the fixed string Please provide a query. and status 400, whatever the
retrieval and composition stages would do; neither stage, nor the keyword
gate, influences this reply. -/
theorem missing_or_empty_query_rejected
    (retrieve : List Char → Option (List (List Char)))
    (compose : List Char → List (List Char) → Option Resp) :
    chat retrieve compose none = (400, ChatBody.text "Please provide a query.".data)
    ∧ chat retrieve compose (some []) = (400, ChatBody.text "Please provide a query.".data) := by
  constructor
  · rfl
  · simp only [chat]
    rw [if_pos trivial]

end Chatbot
